import Mathlib

/-!
# Verification of the `redir` entitlement / credential-encryption core

Shallow embedding of the parts of the `celzero/redir` worker that the spec's
claims are about, with theorems settling each claim.

Conventions used throughout:

* JavaScript `async` functions that can `throw` are embedded as functions
  returning `Thr ε α` (`.err e` for a thrown error, `.ok a` for a normal
  return); a JS `null`/`undefined` result is `Option.none` inside `.ok`.
* External calls (relational store, provider HTTP, platform crypto) are
  supplied through explicit oracle structures: one field per awaited call,
  in source order. Side effects that matter are accumulated in an explicit
  effect-trace list, in the order the source performs them.
* Platform crypto primitives (webcrypto bindings) and encoding helpers are
  outside the spec's scope (§1 of the spec) and are modelled from the spec
  as ideal capabilities; every such definition says so in its doc comment.
-/

namespace Redir

/-- Embedded result of a JS async function: a thrown error or a returned
value. -/
inductive Thr (ε : Type) (α : Type) where
  | err : ε → Thr ε α
  | ok : α → Thr ε α
deriving DecidableEq, Repr

namespace Dbenc

/-- JavaScript strings handled by the credential cipher (hex strings, client
ids, plaintexts). Modelled from the spec: the hex/byte encoding helpers of
`buf.js` are out of scope (§1), so a hex string is represented directly by
the byte sequence it denotes; `hex2buf`/`buf2hex` are then exact inverses,
which is the helpers' contract on the even-length valid-hex strings this
component feeds them. -/
abbrev JStr := List Nat

/-- Errors thrown out of the credential cipher. -/
inductive DErr where
  /-- `fixedNonce`: "iv: lo/hi missing". -/
  | ivMissing
deriving DecidableEq, Repr

/-- `bin.emptyString` (buf.js): true exactly on `null`/`undefined`/`""`.
`none` models a JS `null` or `undefined` string. -/
def emptyStringO : Option JStr → Bool
  | none => true
  | some s => s.isEmpty

/-- `bin.hex2buf` (buf.js): returns the empty buffer on an empty/null hex
string, else the bytes the hex string denotes (identity in this model). -/
def hex2bufO : Option JStr → JStr
  | none => []
  | some s => s

/-- `bin.buf2hex` (buf.js): hex-encode a buffer (identity in this model). -/
def buf2hex (b : JStr) : JStr := b

/-- `bin.str2byt2hex` (buf.js): UTF-8 encode then hex encode (identity on
the byte denotation in this model; empty string stays empty). -/
def str2byt2hex (s : JStr) : JStr := s

/-- The byte denotation of the literal key-context string `"dbenc"`. -/
def dbencCtx : JStr := [100, 98, 101, 110, 99]

/-- Modelled from the spec: the platform SHA-256 capability (`hmac.js` /
webcrypto binding, out of scope per §1), idealized as a collision-free
32-byte digest whose first cell is an injective encoding of the input. -/
def sha256I (b : JStr) : JStr := Encodable.encode b :: List.replicate 31 0

/-- Modelled from the spec: the platform SHA-512 capability, idealized as an
injective digest, used only as HKDF `info`. -/
def sha512I (b : JStr) : Nat := Encodable.encode b

/-- Modelled from the spec: the HKDF-AES key-derivation capability
(`hmac.js hkdfaes`, out of scope per §1), idealized so that distinct
(secret, info) pairs derive distinct keys. A derived key is a `Nat`. -/
def hkdfaesI (secret : JStr) (info : Nat) : Nat := Encodable.encode (secret, info)

/-- Modelled from the spec: the AEAD tag over (key, iv, aad, plaintext),
idealized as an unforgeable-in-the-model injective encoding (the spec treats
AEAD-encrypt as a capability interface, §1/§4.1). -/
def tagNat (k : Nat) (iv aad pt : JStr) : Nat := Encodable.encode (k, iv, aad, pt)

/-- Modelled from the spec: AES-GCM encryption capability
(`webcrypto.js encryptAesGcm`): ciphertext = plaintext with the
authentication tag appended. -/
def encryptAesGcm (k : Nat) (iv aad pt : JStr) : JStr := pt ++ [tagNat k iv aad pt]

/-- Modelled from the spec: AES-GCM decryption capability
(`webcrypto.js decryptAesGcm`): strips and checks the trailing tag;
`none` models the rejected promise on tag mismatch. -/
def decryptAesGcm (k : Nat) (iv aad ct : JStr) : Option JStr :=
  if ct = [] then none
  else
    let body := ct.dropLast
    if ct.getLast? = some (tagNat k iv aad body) then some body else none

/-- `gen` + `hkdfaes` (dbenc.js line 160): throws on empty secret/info; the
throw is caught by `aeskeygen`, so here it is the `none` case. -/
def gen (secret : JStr) (info : Nat) : Option Nat :=
  if secret.isEmpty then none else some (hkdfaesI secret info)

/-- `aeskeygen` (dbenc.js line 136): HKDF AES key from a seed, client id and
key context; `none` on a missing seed/cid or a caught `gen` error. -/
def aeskeygen (seedhex : Option JStr) (cid : JStr) (ctxhex : JStr) : Option Nat :=
  if ¬ emptyStringO seedhex ∧ ¬ cid.isEmpty then
    let sk := hex2bufO seedhex
    let sk256 := sk.take 32
    let info512 := sha512I (hex2bufO (some (cid ++ ctxhex)))
    gen sk256 info512
  else none

/-- `key` (dbenc.js line 102): `none` when the cid or the root secret
`env.KDF_SECRET_D1` is missing (JS falsy: absent or empty). -/
def key (seed : Option JStr) (cid : JStr) (ctxstr : JStr) : Option Nat :=
  if cid.isEmpty then none
  else if emptyStringO seed then none
  else aeskeygen seed cid (str2byt2hex ctxstr)

/-- `fixedNonce` (dbenc.js lines 121-128): first 12 bytes of
SHA-256(lo ∥ hi); throws "iv: lo/hi missing" when either part is empty. -/
def fixedNonce (lo hi : JStr) : Thr DErr JStr :=
  if lo.isEmpty ∨ hi.isEmpty then .err .ivMissing
  else .ok ((sha256I (hex2bufO (some (lo ++ hi)))).take 12)

/-- The key context computed at the top of `encrypt`/`decrypt`
(dbenc.js lines 24-28, 73-77): `"dbenc"` exactly when the aad is present. -/
def keyctxOf (aadhex : Option JStr) : JStr :=
  if emptyStringO aadhex then [] else dbencCtx

/-- `decrypt` (dbenc.js lines 23-44). `seed` is `env.KDF_SECRET_D1`; the
key context is `"dbenc"` exactly when the aad is present. In the source the
key is computed first and the iv second, both before the null-check; both
are pure here, and a `fixedNonce` throw propagates (it is awaited outside
the try/catch), so the match order below is observationally the same. A
missing key yields `.ok none`; an AEAD failure is caught, yielding
`.ok none`. -/
def decrypt (seed : Option JStr) (cid uniq : JStr) (aadhex : Option JStr)
    (taggedciphertext : JStr) : Thr DErr (Option JStr) :=
  match fixedNonce uniq cid with
  | .err e => .err e
  | .ok iv =>
    match key seed cid (keyctxOf aadhex) with
    | none => .ok none
    | some k =>
      match decryptAesGcm k iv (hex2bufO aadhex) (hex2bufO (some taggedciphertext)) with
      | some plaintext => .ok (some (buf2hex plaintext))
      | none => .ok none

/-- `encrypt` (dbenc.js lines 72-93), same structure as `decrypt`. -/
def encrypt (seed : Option JStr) (cid uniq : JStr) (aadhex : Option JStr)
    (plaintext : JStr) : Thr DErr (Option JStr) :=
  match fixedNonce uniq cid with
  | .err e => .err e
  | .ok iv =>
    match key seed cid (keyctxOf aadhex) with
    | none => .ok none
    | some k =>
      .ok (some (buf2hex (encryptAesGcm k iv (hex2bufO aadhex) (hex2bufO (some plaintext)))))

end Dbenc

namespace Wse

/-- The fields of a JS `Date` that this module reads: `getFullYear()`,
`getMonth()` (0-based) and `getTime()` (ms since the epoch). Concrete
instances must be calendar-consistent; the functions below read only these
fields. -/
structure JsDate where
  year : Int
  month : Int
  ms : Int
deriving DecidableEq, Repr

/-- `Math.ceil` of a division by a positive divisor, on the integer
millisecond values this module divides. -/
def jsCeilDiv (a b : Int) : Int := -((-a).fdiv b)

/-- `monthsUntil` (part_002 lines 515-520). -/
def monthsUntil (t base : JsDate) : Int :=
  (t.year - base.year) * 12 + (t.month - base.month)

/-- `daysUntil` (part_002 lines 528-536): ceil of the ms difference over one
day; reads only `getTime()` of its arguments. -/
def daysUntil (tMs baseMs : Int) : Int :=
  jsCeilDiv (tMs - baseMs) 86400000

/-- Error thrown by `expiry2plan` when the expiry is in the past. -/
inductive PlanErr where
  | planExpired
deriving DecidableEq, Repr

/-- `expiry2plan` (part_002 lines 741-781), translated statement by
statement: `plan`/`execCount` start as `("unknown", 0)`; the
`totalMonths > 9` branch assigns `("year", 1)`; then the separate
`if (totalMonths <= 0) ... else ...` runs on the same mutable pair, so its
`else` branch overwrites the `"year"` assignment whenever
`totalMonths > 0`. -/
def expiry2plan (expiry : JsDate) (testing : Bool) (since : JsDate) :
    Thr PlanErr (String × Int) :=
  let totalMonths := monthsUntil expiry since
  let totalDays := daysUntil expiry.ms since.ms
  let st0 : String × Int := ("unknown", 0)
  let st1 := if totalMonths > 9 then (("year" : String), (1 : Int)) else st0
  if totalMonths ≤ 0 then
    if totalDays < 0 then .err .planExpired
    else if totalDays ≥ 10 then .ok ("month", 1)
    else if totalDays = 1 then
      if testing then .ok ("month", 1) else .ok (st1.1, 0)
    else .ok (st1.1, 0)
  else .ok ("month", totalMonths)

/-- `WSEntitlement` (part_002 lines 191-233), the in-memory entitlement. -/
structure Ent where
  cid : String
  sessiontoken : String
  expiryMs : Int
  status : String
  test : Bool
deriving DecidableEq, Repr

/-- Errors thrown by the session-broker module (wse); `.collab n` stands for
an error chosen by a collaborator oracle (network/store/crypto). -/
inductive WErr where
  /-- `WSEntitlement` ctor: "cid and token must not be empty". -/
  | entCtor
  /-- "ws: err encrypt(token) for ...". -/
  | encryptFailed
  /-- "err insert or get creds for ... on ...". -/
  | insertOrGet
  /-- "ws: err <op> decrypt(token) for ...". -/
  | decryptFailed
  /-- "ws: cannot delete banned user ...". -/
  | bannedDelete
  /-- "ws: could not delete creds for ...". -/
  | deleteFailed
  /-- "ws: db delete err for ...". -/
  | dbDeleteFailed
  | collab (n : Nat)
deriving DecidableEq, Repr

/-- The `WSEntitlement` constructor (part_002 lines 199-216): throws on an
empty cid or session token; a falsy expiry defaults to the epoch, a falsy
status to "unknown". -/
def mkEnt (cid tok : String) (expMs : Option Int) (status : String) (test : Bool) :
    Thr WErr Ent :=
  if cid = "" ∨ tok = "" then .err .entCtor
  else .ok ⟨cid, tok, expMs.getD 0, if status = "" then "unknown" else status, test⟩

/-- The `WSUser` fields this module reads (part_002 lines 44-115). -/
structure WSUser where
  userId : String
  sessionAuthHash : String
  status : Int
  expiryMs : Int
  regDateMs : Int
deriving DecidableEq, Repr

/-- `wsStatus` (part_002 lines 654-665). -/
def wsStatus (u : Option WSUser) (nowMs : Int) : String :=
  match u with
  | none => "unknown"
  | some w =>
    if w.status = 3 then "banned"
    else if daysUntil w.expiryMs nowMs ≥ 0 then "valid" else "expired"

/-- Store/provider-visible operations performed by this module. -/
inductive WEff where
  /-- `DELETE /Users` (third-party session deletion attempt). -/
  | delete3p
  /-- `dbx.deleteCreds` (credential-row deletion). -/
  | dbDelete
  | sleepSec (n : Nat)
deriving DecidableEq, Repr

/-- One row of the `ws` credentials table as read by `creds`. -/
structure CredRow where
  userid : String
  sessiontoken : String
  ctimeMs : Int
deriving DecidableEq, Repr

/-- Outcome of one `fetch` attempt inside `deleteCreds`. -/
inductive FetchOut where
  | ok
  | httpStatus (code : Int) (errorCode : Int)
  | netErr
deriving DecidableEq, Repr

/-- Oracle for the wse module's collaborator calls, one field per awaited
call, in source order. -/
structure WseOracle where
  /-- `dbx.wsCreds(db, cid).results`. -/
  wsCredsRows : List CredRow
  /-- `dbenc.decrypt(env, cid, uhex, aadhex, enctok)`. -/
  decryptOut : Thr WErr (Option String)
  /-- `credsStatus(env, tok)`; never throws (it catches internally). -/
  credsStatusOut : String → String × Option WSUser
  /-- `fetch` DELETE /Users outcome, by attempt index. -/
  del3pAttempts : Nat → FetchOut
  /-- `dbx.deleteCreds(db, cid).success`. -/
  dbDeleteOk : Bool
  nowMs : Int
  testing : Bool

/-- `creds` (part_002 lines 365-410): collaborator results from the oracle;
returns the entitlement (or `none`) plus the store effects performed. -/
def creds (o : WseOracle) (cid : String) : Thr WErr (Option Ent) × List WEff :=
  match o.wsCredsRows with
  | [] => (.ok none, [])
  | row :: _ =>
    if row.userid = "" ∨ row.sessiontoken = "" then (.ok none, [])
    else
      match o.decryptOut with
      | .err e => (.err e, [])
      | .ok none => (.err .decryptFailed, [])
      | .ok (some tokhex) =>
        if tokhex = "" then (.err .decryptFailed, [])
        else
          let tok := tokhex
          let su := o.credsStatusOut tok
          let wsstatus := su.1
          let wsuser := su.2
          if wsstatus = "valid" ∨ wsstatus = "expired" ∨ wsstatus = "banned"
              ∨ wsstatus = "unknown" then
            match mkEnt cid tok (wsuser.map (·.expiryMs)) wsstatus o.testing with
            | .err e => (.err e, [])
            | .ok ent => (.ok (some ent), [])
          else if wsstatus = "invalid" then
            (.ok none, [WEff.dbDelete])
          else (.ok none, [])

/-- The retry loop inside `deleteCreds` (part_002 lines 687-731): sleep then
DELETE; success on 2xx or on a 403 whose errorCode is 701 (session already
invalid); a caught fetch error or any other failure moves to the next
attempt; false after the list of tries is exhausted. -/
def delCredsGo (att : Nat → FetchOut) : List Nat → Nat → Bool × List WEff
  | [], _ => (false, [])
  | t :: rest, idx =>
    let pre := [WEff.sleepSec t, WEff.delete3p]
    match att idx with
    | .ok => (true, pre)
    | .httpStatus code ecode =>
      if code = 403 ∧ ecode = 701 then (true, pre)
      else
        let r := delCredsGo att rest (idx + 1)
        (r.1, pre ++ r.2)
    | .netErr =>
      let r := delCredsGo att rest (idx + 1)
      (r.1, pre ++ r.2)

/-- `deleteCreds` (part_002 lines 673-733): three attempts, 1s/2s/3s. -/
def deleteCreds (o : WseOracle) : Bool × List WEff :=
  delCredsGo o.del3pAttempts [1, 2, 3] 0

/-- `deleteWsEntitlement` (part_002 lines 333-356): errors from the `creds`
read are swallowed (try/catch); a missing credential returns successfully
with nothing deleted. -/
def deleteWsEntitlement (o : WseOracle) (cid : String) : Thr WErr Unit × List WEff :=
  let cr := creds o cid
  let copt : Option Ent := match cr.1 with | .err _ => none | .ok v => v
  match copt with
  | none => (.ok (), cr.2)
  | some c =>
    if c.status = "banned" then (.err .bannedDelete, cr.2)
    else
      let dr := deleteCreds o
      if ¬ dr.1 then (.err .deleteFailed, cr.2 ++ dr.2)
      else if o.dbDeleteOk then (.ok (), cr.2 ++ dr.2 ++ [WEff.dbDelete])
      else (.err .dbDeleteFailed, cr.2 ++ dr.2 ++ [WEff.dbDelete])

/-- Oracle for `getOrGenWsEntitlement`'s collaborator calls: the first
`creds` read, `newCreds` (POST /Users), `dbenc.encryptText`,
`dbx.insertCreds`, the retry `creds` read, the third-party `deleteCreds`,
and `maybeUpdateCreds` (PUT /Users renewal plus status re-read). -/
structure GenOracle where
  creds1 : Thr WErr (Option Ent)
  newCredsOut : Thr WErr WSUser
  encOut : Thr WErr (Option String)
  insertOk : Thr WErr Bool
  creds2 : Thr WErr (Option Ent)
  del3pOk : Bool
  maybeUpd : Ent → Thr WErr Ent
  nowMs : Int
  testing : Bool

/-- `getOrGenWsEntitlement` (part_002 lines 244-325). On a lost insert race
the refetched credential (`creds2`) is used as-is; on a refetch miss or
token mismatch the just-created third-party session is deleted best-effort
(`del3pOk`, result unused) and a still-`none` credential throws
"err insert or get creds". If the held credential is expired or `renew` is
set, `maybeUpdateCreds` runs; its error is rethrown only when the held
credential was already expired, else logged and the credential returned. -/
def getOrGenWsEntitlement (o : GenOracle) (cid : String) (renew : Bool) :
    Thr WErr Ent :=
  match o.creds1 with
  | .err e => .err e
  | .ok copt0 =>
    let step : Thr WErr (Option Ent) :=
      match copt0 with
      | some c => .ok (some c)
      | none =>
        match o.newCredsOut with
        | .err e => .err e
        | .ok wsuser =>
          match o.encOut with
          | .err e => .err e
          | .ok none => .err .encryptFailed
          | .ok (some _) =>
            match o.insertOk with
            | .err e => .err e
            | .ok success =>
              if ¬ success then o.creds2
              else
                match mkEnt cid wsuser.sessionAuthHash (some wsuser.expiryMs)
                    (wsStatus (some wsuser) o.nowMs) o.testing with
                | .err e => .err e
                | .ok ent => .ok (some ent)
    match step with
    | .err e => .err e
    | .ok none => .err .insertOrGet
    | .ok (some c) =>
      if c.status = "expired" ∨ renew then
        match o.maybeUpd c with
        | .ok c2 => .ok c2
        | .err e => if c.status = "expired" then .err e else .ok c
      else .ok c

end Wse

namespace Dbx

/-- One row of the `playorders` table, with the columns the dbx statements
(part_007) read or write; `μ` is the type of the `meta` blob. `prod` and
`ctime` come from the schema (part_006) and are never bound by
`upsertPlaySub` (`ctime` defaults to the current timestamp on insert). -/
structure PlayRow (μ : Type) where
  purchasetoken : String
  prod : Option String
  meta : Option μ
  cid : String
  linkedtoken : Option String
  ctime : Int
  mtime : Int
deriving DecidableEq, Repr

/-- `upsertPlaySub` (part_007 lines 178-200). With `info` present:
`INSERT INTO playorders(purchasetoken, meta, cid, linkedtoken, mtime)
VALUES(...) ON CONFLICT(purchasetoken) DO UPDATE SET meta=excluded.meta,
linkedtoken=excluded.linkedtoken, mtime=excluded.mtime` — the update list
omits `cid` ("skip cid update and assume them to match"). With `info`
null: `INSERT OR IGNORE INTO playorders(purchasetoken, cid, linkedtoken,
mtime)`. `now` is the bound `now()` timestamp. -/
def upsertPlaySub {μ : Type} (db : List (PlayRow μ)) (cid token : String)
    (linkedtoken : Option String) (info : Option μ) (now : Int) :
    List (PlayRow μ) :=
  match info with
  | some inf =>
    if db.any (fun r => r.purchasetoken == token) then
      db.map (fun r =>
        if r.purchasetoken == token then
          { r with meta := some inf, linkedtoken := linkedtoken, mtime := now }
        else r)
    else
      db ++ [{ purchasetoken := token, prod := none, meta := some inf, cid := cid,
               linkedtoken := linkedtoken, ctime := now, mtime := now }]
  | none =>
    if db.any (fun r => r.purchasetoken == token) then db
    else
      db ++ [{ purchasetoken := token, prod := none, meta := none, cid := cid,
               linkedtoken := linkedtoken, ctime := now, mtime := now }]

/-- Insertion step of the `ORDER BY mtime` sort. -/
def insertByMtime {μ : Type} (r : PlayRow μ) : List (PlayRow μ) → List (PlayRow μ)
  | [] => [r]
  | x :: xs => if r.mtime ≤ x.mtime then r :: x :: xs else x :: insertByMtime r xs

/-- `ORDER BY mtime` (stable insertion sort). -/
def sortByMtime {μ : Type} : List (PlayRow μ) → List (PlayRow μ)
  | [] => []
  | x :: xs => insertByMtime x (sortByMtime xs)

/-- `firstLinkedPurchaseTokenEntry` (part_007 lines 223-231):
`SELECT * from playorders where linkedtoken = ? ORDER BY mtime LIMIT 1`. -/
def firstLinkedPurchaseTokenEntry {μ : Type} (db : List (PlayRow μ)) (t : String) :
    List (PlayRow μ) :=
  (sortByMtime (db.filter (fun r => r.linkedtoken == some t))).take 1

end Dbx

namespace Playorder

/-- Base-plan ids (playorder.js lines 2213-2216). -/
def monthlyBasePlanId : String := "proxy-monthly"

def yearlyBasePlanId : String := "proxy-yearly"

def twoYearlyBasePlanId : String := "proxy-yearly-2"

def fiveYearlyBasePlanId : String := "proxy-yearly-5"

/-- The `GEntitlement` fields read by the refund path (playorder.js
lines 2240-2254): `start` and `expiry` as epoch ms. -/
structure GEnt where
  productId : String
  basePlanId : String
  startMs : Int
  expiryMs : Int
deriving DecidableEq, Repr

/-- `GEntitlement.refundWindowDays` (playorder.js lines 2344-2350). -/
def refundWindowDays (g : GEnt) : Int :=
  if g.basePlanId = monthlyBasePlanId then 3
  else if g.basePlanId = yearlyBasePlanId then 7
  else if g.basePlanId = twoYearlyBasePlanId then 14
  else if g.basePlanId = fiveYearlyBasePlanId then 28
  else 3

/-- `GEntitlement.withinRefundWindow` (playorder.js lines 2352-2357):
`(Date.now() − start.getTime()) / (1000·60·60·24) ≤ refundWindowDays`,
with the division exact (rational). -/
def withinRefundWindow (g : GEnt) (nowMs : Int) : Bool :=
  decide (((nowMs - g.startMs : ℚ)) / (1000 * 60 * 60 * 24) ≤ (refundWindowDays g : ℚ))

/-- Errors thrown by the reconciler paths; `.collab n` is an oracle-chosen
collaborator error. -/
inductive PErr where
  /-- "sub: no ent for ... but sub active". -/
  | noEnt
  /-- "sub: ent expired ... but sub active". -/
  | entExpired
  /-- `recursivelyGetCid`: "Cid ... missing or invalid for profile ...". -/
  | cidMissingRec
  /-- `getOrGenAndPersistCid`: "sub: missing for purchase token: err? ...". -/
  | cidMissingRefuse
  /-- "sub: failed to get or insert ...". -/
  | insertClientFailed
  | collab (n : Nat)
deriving DecidableEq, Repr

/-- The `ProductPurchaseV2` fields read directly by
`refundOnetimePurchase`; the line-item fields feeding `onetimePlan` are
behind the oracle's `plan` result. -/
structure PurchaseV2 where
  orderId : String
deriving DecidableEq, Repr

/-- Provider/store-visible calls made by `refundOnetimePurchase`. -/
inductive RefEff where
  /-- `refundOrder` POST (provider refund endpoint). -/
  | refundCall
  /-- `deleteWsEntitlement` call. -/
  | delEntCall
deriving DecidableEq, Repr

/-- The JSON responses returned by `r200j` / `r400j`, by status and the
`message`/`error` field. -/
inductive HResp where
  | ok200 (msg : String)
  | bad400 (errmsg : String)
deriving DecidableEq, Repr

/-- Oracle for `refundOnetimePurchase`'s collaborator calls. -/
structure RefundOracle where
  /-- `getOnetimeProductV2(env, purchaseToken)`. -/
  getProduct : Thr PErr PurchaseV2
  /-- `onetimePlan(purchase2)`. -/
  plan : Option GEnt
  /-- `refundOrder(env, orderId)`. -/
  refundOrderOut : Thr PErr Unit
  /-- `deleteWsEntitlement(env, cid)` (errors are caught and logged). -/
  delEntOut : Thr PErr Unit
  nowMs : Int

/-- `refundOnetimePurchase` (playorder.js lines 4001-4050): 400 on missing
order info; 400 "refund window exceeded" when a plan exists and the window
is past (before any provider call); else refund the order, then
best-effort-delete the entitlement (its error only logged), and 200. -/
def refundOnetimePurchase (o : RefundOracle) (_cid purchaseToken : String) :
    Thr PErr HResp × List RefEff :=
  match o.getProduct with
  | .err e => (.err e, [])
  | .ok p =>
    let plan := o.plan
    let orderId := p.orderId
    if orderId = "" ∨ purchaseToken = "" then
      (.ok (.bad400 "missing order information"), [])
    else
      let exceeded : Bool :=
        match plan with
        | some pl => ! (withinRefundWindow pl o.nowMs)
        | none => false
      if exceeded then (.ok (.bad400 "refund window exceeded"), [])
      else
        match o.refundOrderOut with
        | .err e => (.err e, [RefEff.refundCall])
        | .ok _ =>
          (.ok (.ok200 "refunded onetime purchase"),
            [RefEff.refundCall, RefEff.delEntCall])

/-- One subscription line item, with the fields this module reads;
`expiryTimeMs = none` models a missing/empty `expiryTime` string. -/
structure LineItem where
  productId : String
  expiryTimeMs : Option Int
  /-- `deferredItemReplacement != null`. -/
  deferredItemReplacement : Bool
  /-- `autoRenewingPlan?.autoRenewEnabled`; `none` when `autoRenewingPlan`
  is absent. -/
  autoRenewingPlan : Option Bool
deriving DecidableEq, Repr

/-- `canceledStateContext`, with `replacementCancellation != null`. -/
structure CancelCtx where
  replacementCancellation : Bool
deriving DecidableEq, Repr

/-- The `SubscriptionPurchaseV2` fields this module reads. `extAcctId`
is `externalAccountIdentifiers?.obfuscatedExternalAccountId` (`none` when
either level is absent). `testPurchase` is `testPurchase != null`. -/
structure SubPurchase where
  subscriptionState : String
  acknowledgementState : String
  lineItems : List LineItem
  canceledStateContext : Option CancelCtx
  testPurchase : Bool
  linkedPurchaseToken : Option String
  extAcctId : Option String
deriving DecidableEq, Repr

/-- `replacing` (playorder.js lines 5327-5331). -/
def replacing (sub : SubPurchase) : Bool :=
  match sub.canceledStateContext with
  | none => false
  | some ctx => ctx.replacementCancellation

/-- `isPurchaseTokenLinked` (playorder.js lines 5271-5281), over the
embedded `playorders` table (the store call succeeds in this model; an
absent/empty result list gives `false`). -/
def isPurchaseTokenLinked {μ : Type} (db : List (Dbx.PlayRow μ)) (t : String) :
    Bool :=
  ! (Dbx.firstLinkedPurchaseTokenEntry db t).isEmpty

/-- Store/provider-visible operations of `processSubscription`. -/
inductive PEff where
  /-- `registerOrUpdateActiveSubscription` → `dbx.upsertPlaySub`. -/
  | upsertSub
  /-- `ackSubscriptionWithoutEntitlement`. -/
  | ackNoEnt
  /-- `getOrGenWsEntitlement`. -/
  | entFetch
  /-- `ackSubscription` (with entitlement payload). -/
  | ackEnt
  /-- `deleteWsEntitlement`. -/
  | entDel
  | sleepSec (n : Nat)
deriving DecidableEq, Repr

/-- Oracle for `processSubscription`'s collaborator calls. -/
structure PSOracle where
  /-- `subscriptionInfo(sub)` (may throw "No sub line items"). -/
  gprod : Thr PErr (Option GEnt)
  /-- `getOrGenWsEntitlement(env, cid, expiry, plan)`. -/
  entOut : Thr PErr (Option Wse.Ent)
  /-- `ackSubscription(env, purchasetoken, ent)`. -/
  ackOut : Thr PErr Unit
  /-- `ackSubscriptionWithoutEntitlement(env, purchasetoken)`. -/
  ackNoEntOut : Thr PErr Unit
  /-- `deleteWsEntitlement(env, cid)`, by call index. -/
  delEnt : Nat → Thr PErr Unit

/-- The `for (const tries of [1, 10])` revoke retry loop (playorder.js
lines 3810-3821): sleep, try `deleteWsEntitlement`, break on success, log
and retry on error. Returns the effects and the next call index. -/
def revokeTries (delEnt : Nat → Thr PErr Unit) (idx : Nat) :
    List Nat → List PEff × Nat
  | [] => ([], idx)
  | t :: rest =>
    match delEnt idx with
    | .ok _ => ([PEff.sleepSec t, PEff.entDel], idx + 1)
    | .err _ =>
      let r := revokeTries delEnt (idx + 1) rest
      ([PEff.sleepSec t, PEff.entDel] ++ r.1, r.2)

/-- The per-line-item loop of the cancelled/expired/revoked/unpaid branch
(playorder.js lines 3796-3838). The `(revoked && !replaced) || unpaid`
condition is line-item-independent and passed in as `doRevoke`; the other
two branches (`skip revoke1`/`skip revoke2`) only log and perform no
store/provider operation. -/
def itemsLoop (delEnt : Nat → Thr PErr Unit) (doRevoke : Bool) (idx : Nat) :
    List LineItem → List PEff × Nat
  | [] => ([], idx)
  | _ :: rest =>
    if doRevoke then
      let r1 := revokeTries delEnt idx [1, 10]
      let r2 := itemsLoop delEnt doRevoke r1.2 rest
      (r1.1 ++ r2.1, r2.2)
    else itemsLoop delEnt doRevoke idx rest

/-- Result of `processSubscription`: the returned value (`.ok none` models
the bare `return` on missing product info), the updated `playorders`
table, and the effect trace. -/
structure PSOut (μ : Type) where
  res : Thr PErr (Option Bool)
  db : List (Dbx.PlayRow μ)
  tr : List PEff

/-- `processSubscription` (playorder.js lines 3715-3846), with the state
flags computed as in the source, the Subscription/Order Record upserted
unconditionally before any branch, and the obsolescence early-return ahead
of the active-state handling. -/
def processSubscription (o : PSOracle) (db : List (Dbx.PlayRow SubPurchase))
    (cid : String) (sub : SubPurchase) (purchasetoken : String)
    (revoked : Bool) (now : Int) : PSOut SubPurchase :=
  let active := sub.subscriptionState == "SUBSCRIPTION_STATE_ACTIVE"
  let expired := sub.subscriptionState == "SUBSCRIPTION_STATE_EXPIRED"
  let cancelled := sub.subscriptionState == "SUBSCRIPTION_STATE_CANCELED"
  let unpaid := sub.subscriptionState == "SUBSCRIPTION_STATE_PENDING_PURCHASE_CANCELED"
  let ackd := sub.acknowledgementState == "ACKNOWLEDGEMENT_STATE_ACKNOWLEDGED"
  let replaced := if expired || cancelled then replacing sub else false
  let obsoleted := isPurchaseTokenLinked db purchasetoken
  let db2 := Dbx.upsertPlaySub db cid purchasetoken sub.linkedPurchaseToken (some sub) now
  let tr0 := [PEff.upsertSub]
  if obsoleted then
    if !ackd then
      match o.ackNoEntOut with
      | .err e => ⟨.err e, db2, tr0 ++ [PEff.ackNoEnt]⟩
      | .ok _ => ⟨.ok (some true), db2, tr0 ++ [PEff.ackNoEnt]⟩
    else ⟨.ok (some true), db2, tr0⟩
  else if active then
    match o.gprod with
    | .err e => ⟨.err e, db2, tr0⟩
    | .ok none => ⟨.ok none, db2, tr0⟩
    | .ok (some _) =>
      match o.entOut with
      | .err e => ⟨.err e, db2, tr0 ++ [PEff.entFetch]⟩
      | .ok entOpt =>
        if ackd then ⟨.ok (some true), db2, tr0 ++ [PEff.entFetch]⟩
        else
          match entOpt with
          | none => ⟨.err .noEnt, db2, tr0 ++ [PEff.entFetch]⟩
          | some ent =>
            if ent.status == "banned" then ⟨.ok (some true), db2, tr0 ++ [PEff.entFetch]⟩
            else if ent.status == "expired" then ⟨.err .entExpired, db2, tr0 ++ [PEff.entFetch]⟩
            else
              match o.ackOut with
              | .err e => ⟨.err e, db2, tr0 ++ [PEff.entFetch, PEff.ackEnt]⟩
              | .ok _ => ⟨.ok (some true), db2, tr0 ++ [PEff.entFetch, PEff.ackEnt]⟩
  else if cancelled || expired || revoked || unpaid then
    let doRevoke := (revoked && !replaced) || unpaid
    let r := itemsLoop o.delEnt doRevoke 0 sub.lineItems
    ⟨.ok (some true), db2, tr0 ++ r.1⟩
  else ⟨.ok (some true), db2, tr0⟩

/-- Oracle for the client-identity resolution path. -/
structure CidOracle where
  /-- `getSubscription(env, linkedPurchaseToken)`. -/
  getSub : String → Thr PErr SubPurchase
  /-- `crandHex(64)`. -/
  randHex : String
  /-- `dbx.insertClient(db, cid, clientinfo, kind).success`. -/
  insertClientOk : Bool

/-- JS truthiness of an optional string (`null`/`undefined`/`""` falsy). -/
def truthyOpt : Option String → Bool
  | some v => v != ""
  | none => false

/-- Recursion body for `recursivelyGetCid`, structural on remaining fuel;
`recursivelyGetCid` passes `4 - n` so the fuel never runs out inside the
`n < 4` guard. -/
def recursivelyGetCidGo (o : CidOracle) : Nat → SubPurchase → Nat → Thr PErr String
  | fuel, sub, n =>
    let cid := sub.extAcctId
    let cidlen : Nat := match cid with | some s => s.length | none => 0
    if cidlen ≥ 32 then .ok (cid.getD "")
    else if cidlen = 0 ∧ n < 4 ∧ truthyOpt sub.linkedPurchaseToken = true then
      match sub.linkedPurchaseToken with
      | some lt =>
        match fuel with
        | 0 => .err .cidMissingRec
        | fuel2 + 1 =>
          match o.getSub lt with
          | .err e => .err e
          | .ok sub2 => recursivelyGetCidGo o fuel2 sub2 (n + 1)
      | none => .err .cidMissingRec
    else .err .cidMissingRec

/-- `recursivelyGetCid` (playorder.js lines 4609-4629): returns the
obfuscated external account id when it has ≥ 32 chars (`mincidlength`);
when it is absent (length 0) and a linked purchase token exists, up to 3
linked-token hops (n goes 1,2,3 under the `n < 4` guard) re-fetch the
linked purchase and retry; otherwise throws. -/
def recursivelyGetCid (o : CidOracle) (sub : SubPurchase) (n : Nat) :
    Thr PErr String :=
  recursivelyGetCidGo o (4 - n) sub n

/-- Store writes of the identity-resolution path. -/
inductive CEff where
  /-- `dbx.insertClient(db, cid, clientinfo, kind)` (kind 1 = generated). -/
  | insertClient (cid : String) (kind : Nat)
deriving DecidableEq, Repr

/-- `getOrGenAndPersistCid` (playorder.js lines 4516-4543): a thrown
`recursivelyGetCid` is caught (cid stays `""`); an empty/short cid is
replaced by `crandHex(64)` with kind 1 (generated); then
`if (kind == 1 && !gen) throw`; then, when `insert` is set,
`dbx.insertClient` runs and a failed insert throws. -/
def getOrGenAndPersistCid (o : CidOracle) (sub : SubPurchase)
    (gen insert : Bool) : Thr PErr String × List CEff :=
  let cid0 : String :=
    match recursivelyGetCid o sub 1 with
    | .ok c => c
    | .err _ => ""
  let gc := if cid0 = "" ∨ cid0.length < 32 then (o.randHex, 1) else (cid0, 0)
  let cid1 := gc.1
  let kind : Nat := gc.2
  if kind = 1 ∧ gen = false then (.err .cidMissingRefuse, [])
  else if insert then
    if o.insertClientOk then (.ok cid1, [CEff.insertClient cid1 kind])
    else (.err .insertClientFailed, [CEff.insertClient cid1 kind])
  else (.ok cid1, [])

/-- `getCidThenPersist` (playorder.js lines 4472-4476):
`const gen = true; const persist = true;
return getOrGenAndPersistCid(env, sub, !gen, persist)` — note the `!gen`:
generation is refused on this path. -/
def getCidThenPersist (o : CidOracle) (sub : SubPurchase) :
    Thr PErr String × List CEff :=
  getOrGenAndPersistCid o sub (!true) true

/-- `getCid` (playorder.js lines 4478-4482):
`getOrGenAndPersistCid(env, sub, !gen, !persist)`. -/
def getCid (o : CidOracle) (sub : SubPurchase) :
    Thr PErr String × List CEff :=
  getOrGenAndPersistCid o sub (!true) (!true)

end Playorder

/-! ## Helper lemmas -/

namespace Dbenc

theorem hex2bufO_some (s : JStr) : hex2bufO (some s) = s := rfl

theorem key_eq_some (seed cid ctx : JStr) (hc : cid ≠ []) (hs : seed ≠ []) :
    key (some seed) cid ctx = some (hkdfaesI (seed.take 32) (sha512I (cid ++ ctx))) := by
  simp [key, emptyStringO, aeskeygen, gen, hex2bufO, str2byt2hex, List.isEmpty_iff,
    List.take_eq_nil_iff, hc, hs]

theorem key_some_imp {seed cid ctx : JStr} {k : ℕ}
    (h : key (some seed) cid ctx = some k) : cid ≠ [] ∧ seed ≠ [] := by
  constructor
  · intro he; subst he; simp [key] at h
  · intro he; subst he
    cases h2 : cid.isEmpty <;> simp [key, emptyStringO, h2] at h

theorem tagNat_inj {k k2 : ℕ} {iv iv2 aad aad2 pt pt2 : JStr}
    (h : tagNat k iv aad pt = tagNat k2 iv2 aad2 pt2) :
    k = k2 ∧ iv = iv2 ∧ aad = aad2 ∧ pt = pt2 := by
  have h2 := Encodable.encode_injective h
  simpa [Prod.ext_iff] using h2

theorem sha256I_take12_inj {a b : JStr}
    (h : (sha256I a).take 12 = (sha256I b).take 12) : a = b := by
  have ha : ((sha256I a).take 12).head? = some (Encodable.encode a) := rfl
  have hb : ((sha256I b).take 12).head? = some (Encodable.encode b) := rfl
  have h3 : some (Encodable.encode a) = some (Encodable.encode b) := by
    rw [← ha, ← hb, h]
  exact Encodable.encode_injective (Option.some.inj h3)

theorem decryptAesGcm_append_tag (k : ℕ) (iv aad pt : JStr) :
    decryptAesGcm k iv aad (pt ++ [tagNat k iv aad pt]) = some pt := by
  simp [decryptAesGcm, List.dropLast_concat, List.getLast?_concat]

end Dbenc


namespace Dbx

theorem insertByMtime_ne_nil {μ : Type} (r : PlayRow μ) (l : List (PlayRow μ)) :
    insertByMtime r l ≠ [] := by
  cases l with
  | nil => simp [insertByMtime]
  | cons x xs =>
    simp only [insertByMtime]
    split <;> simp

theorem sortByMtime_eq_nil_iff {μ : Type} (l : List (PlayRow μ)) :
    sortByMtime l = [] ↔ l = [] := by
  cases l with
  | nil => simp [sortByMtime]
  | cons x xs => simp [sortByMtime, insertByMtime_ne_nil]

end Dbx

namespace Playorder

theorem isLinked_of_mem {μ : Type} {db : List (Dbx.PlayRow μ)}
    {r : Dbx.PlayRow μ} {t : String} (hr : r ∈ db) (h : r.linkedtoken = some t) :
    isPurchaseTokenLinked db t = true := by
  have hf : db.filter (fun r => r.linkedtoken == some t) ≠ [] := by
    intro hnil
    have : r ∈ db.filter (fun r => r.linkedtoken == some t) := by
      simp [List.mem_filter, hr, h]
    rw [hnil] at this
    simp at this
  have hs : Dbx.sortByMtime (db.filter (fun r => r.linkedtoken == some t)) ≠ [] := by
    simpa [Dbx.sortByMtime_eq_nil_iff] using hf
  simp only [isPurchaseTokenLinked, Dbx.firstLinkedPurchaseTokenEntry]
  simp [List.isEmpty_iff, List.take_eq_nil_iff, hs]

end Playorder

/-! ## Claims -/

/-- C3 (amended): in the storage-at-rest credential cipher, a missing root
secret, and an AEAD decryption failure (tag mismatch), return `null` to the
caller with no exception; but an empty client id or empty nonce string makes
`fixedNonce` throw "iv: lo/hi missing", and that exception propagates out of
`encrypt`/`decrypt` (it is raised outside their try/catch). -/
theorem dbenc_failure_modes (cid uniq : Dbenc.JStr) (aad : Option Dbenc.JStr)
    (ct : Dbenc.JStr) :
    (cid ≠ [] → uniq ≠ [] →
      Dbenc.decrypt none cid uniq aad ct = .ok none
      ∧ Dbenc.encrypt none cid uniq aad ct = .ok none)
    ∧ (∀ seed : Option Dbenc.JStr, cid = [] ∨ uniq = [] →
      Dbenc.decrypt seed cid uniq aad ct = .err .ivMissing
      ∧ Dbenc.encrypt seed cid uniq aad ct = .err .ivMissing)
    ∧ (∀ seed k iv, Dbenc.key (some seed) cid (Dbenc.keyctxOf aad) = some k →
        Dbenc.fixedNonce uniq cid = .ok iv →
        Dbenc.decryptAesGcm k iv (Dbenc.hex2bufO aad) (Dbenc.hex2bufO (some ct)) = none →
        Dbenc.decrypt (some seed) cid uniq aad ct = .ok none) := by
  refine ⟨fun hc hu => ?_, fun seed hcu => ?_, fun seed k iv hk hiv hfail => ?_⟩
  · constructor <;>
      simp [Dbenc.decrypt, Dbenc.encrypt, Dbenc.fixedNonce, Dbenc.key,
        Dbenc.emptyStringO, List.isEmpty_iff, hc, hu]
  · rcases hcu with hc | hu
    · subst hc
      constructor <;> simp [Dbenc.decrypt, Dbenc.encrypt, Dbenc.fixedNonce, List.isEmpty_iff]
    · subst hu
      constructor <;> simp [Dbenc.decrypt, Dbenc.encrypt, Dbenc.fixedNonce, List.isEmpty_iff]
  · simp [Dbenc.decrypt, hk, hiv, hfail]

/-- C3 counterexample: the claim says an empty nonce string (resp. empty
client id) yields a `null` return with no exception escaping the component;
at these concrete inputs `decrypt` (empty nonce) and `encrypt` (empty
client id) instead propagate the `fixedNonce` exception. -/
theorem dbenc_empty_key_material_throws :
    Dbenc.decrypt (some [7]) [1] [] (some [2]) [3] = .err .ivMissing
    ∧ Dbenc.encrypt (some [7]) [] [4] (some [2]) [3] = .err .ivMissing :=
  ⟨rfl, rfl⟩

/-- C3 witness: with key material present but the root secret absent,
both calls return `null` without throwing. -/
theorem dbenc_failure_modes_witness :
    Dbenc.decrypt none [1] [2] (some [3]) [4] = .ok none
    ∧ Dbenc.encrypt none [1] [2] (some [3]) [4] = .ok none :=
  (dbenc_failure_modes [1] [2] (some [3]) [4]).1 (by decide) (by decide)

/-- C4: encrypt-then-decrypt under the same (client id, nonce, AAD, root
secret) returns the original plaintext; decrypting with any single byte of
the tagged ciphertext altered returns `null` (never a wrong plaintext), and
decrypting with an AAD whose byte denotation differs also returns `null`. -/
theorem dbenc_roundtrip_and_tamper
    (seed cid uniq : Dbenc.JStr) (aad : Option Dbenc.JStr) (pt ct : Dbenc.JStr)
    (henc : Dbenc.encrypt (some seed) cid uniq aad pt = .ok (some ct)) :
    Dbenc.decrypt (some seed) cid uniq aad ct = .ok (some pt)
    ∧ (∀ j v, j < ct.length → ct[j]? ≠ some v →
        Dbenc.decrypt (some seed) cid uniq aad (ct.set j v) = .ok none)
    ∧ (∀ aad2 : Option Dbenc.JStr, Dbenc.hex2bufO aad2 ≠ Dbenc.hex2bufO aad →
        Dbenc.decrypt (some seed) cid uniq aad2 ct = .ok none) := by
  unfold Dbenc.encrypt at henc
  rcases hfx : Dbenc.fixedNonce uniq cid with e | iv
  · rw [hfx] at henc; exact absurd henc (by simp)
  rw [hfx] at henc
  rcases hk : Dbenc.key (some seed) cid (Dbenc.keyctxOf aad) with _ | k
  · rw [hk] at henc; exact absurd henc (by simp)
  rw [hk] at henc
  have hct : ct = Dbenc.encryptAesGcm k iv (Dbenc.hex2bufO aad) pt := by
    have h2 := henc
    simp [Dbenc.buf2hex, Dbenc.hex2bufO_some] at h2
    exact h2.symm
  subst hct
  obtain ⟨hc, hs⟩ := Dbenc.key_some_imp hk
  refine ⟨?_, ?_, ?_⟩
  · simp only [Dbenc.decrypt, hfx, hk, Dbenc.hex2bufO_some, Dbenc.encryptAesGcm]
    rw [Dbenc.decryptAesGcm_append_tag]
    rfl
  · intro j v hj hv
    simp only [Dbenc.encryptAesGcm] at hj hv ⊢
    simp only [Dbenc.decrypt, hfx, hk, Dbenc.hex2bufO_some]
    by_cases hjl : j < pt.length
    · rw [List.set_append_left _ _ hjl]
      have hv2 : pt[j]? ≠ some v := by
        simpa [List.getElem?_append, hjl] using hv
      have hne2 : pt.set j v ≠ pt := by
        intro hEq
        have h1 : (pt.set j v)[j]? = some v := List.getElem?_set_eq_of_lt v hjl
        rw [hEq] at h1
        exact hv2 h1
      have hdec : Dbenc.decryptAesGcm k iv (Dbenc.hex2bufO aad)
          (pt.set j v ++ [Dbenc.tagNat k iv (Dbenc.hex2bufO aad) pt]) = none := by
        simp only [Dbenc.decryptAesGcm, List.dropLast_concat, List.getLast?_concat]
        rw [if_neg (by simp), if_neg]
        intro hEq
        exact hne2 ((Dbenc.tagNat_inj (Option.some.inj hEq)).2.2.2).symm
      rw [hdec]
    · have hj2 : j = pt.length := by
        simp [List.length_append] at hj
        omega
      subst hj2
      rw [List.set_append_right _ _ (le_refl _)]
      simp only [Nat.sub_self, List.set]
      have hv2 : v ≠ Dbenc.tagNat k iv (Dbenc.hex2bufO aad) pt := by
        intro hEq
        apply hv
        rw [hEq]
        simp [List.getElem?_append]
      have hdec : Dbenc.decryptAesGcm k iv (Dbenc.hex2bufO aad) (pt ++ [v]) = none := by
        simp only [Dbenc.decryptAesGcm, List.dropLast_concat, List.getLast?_concat]
        rw [if_neg (by simp), if_neg]
        intro hEq
        exact hv2 (Option.some.inj hEq)
      rw [hdec]
  · intro aad2 hne2
    simp only [Dbenc.decrypt, hfx, Dbenc.hex2bufO_some, Dbenc.encryptAesGcm,
      Dbenc.key_eq_some _ _ _ hc hs]
    have hdec : Dbenc.decryptAesGcm
        (Dbenc.hkdfaesI (seed.take 32)
          (Dbenc.sha512I (cid ++ Dbenc.keyctxOf aad2)))
        iv (Dbenc.hex2bufO aad2)
        (pt ++ [Dbenc.tagNat k iv (Dbenc.hex2bufO aad) pt]) = none := by
      simp only [Dbenc.decryptAesGcm, List.dropLast_concat, List.getLast?_concat]
      rw [if_neg (by simp), if_neg]
      intro hEq
      exact hne2 ((Dbenc.tagNat_inj (Option.some.inj hEq)).2.2.1).symm
    rw [hdec]

/-- C4 witness: a concrete round trip through `encrypt` then `decrypt`. -/
theorem dbenc_roundtrip_and_tamper_witness :
    Dbenc.decrypt (some [1]) [2] [3] (some [4])
      (Dbenc.encryptAesGcm (Dbenc.hkdfaesI [1] (Dbenc.sha512I ([2] ++ Dbenc.dbencCtx)))
        ((Dbenc.sha256I ([3] ++ [2])).take 12) [4] [5]) = .ok (some [5]) :=
  (dbenc_roundtrip_and_tamper [1] [2] [3] (some [4]) [5] _ (by decide)).1

/-- C8: the fixed-nonce scheme is deterministic — `fixedNonce` is a pure
function returning exactly the first 12 bytes of SHA-256(nonce ∥ client id)
— and two distinct client ids under the same purpose/nonce string derive
distinct 12-byte IVs (no nonce reuse across distinct (purpose, id) pairs,
under the collision-free hash model). -/
theorem fixedNonce_deterministic_and_distinct (lo hi hi2 : Dbenc.JStr)
    (hlo : lo ≠ []) (hhi : hi ≠ []) (hhi2 : hi2 ≠ []) (hne : hi ≠ hi2) :
    Dbenc.fixedNonce lo hi = .ok ((Dbenc.sha256I (lo ++ hi)).take 12)
    ∧ ((Dbenc.sha256I (lo ++ hi)).take 12).length = 12
    ∧ Dbenc.fixedNonce lo hi ≠ Dbenc.fixedNonce lo hi2 := by
  have e1 : Dbenc.fixedNonce lo hi = .ok ((Dbenc.sha256I (lo ++ hi)).take 12) := by
    simp [Dbenc.fixedNonce, Dbenc.hex2bufO, List.isEmpty_iff, hlo, hhi]
  have e2 : Dbenc.fixedNonce lo hi2 = .ok ((Dbenc.sha256I (lo ++ hi2)).take 12) := by
    simp [Dbenc.fixedNonce, Dbenc.hex2bufO, List.isEmpty_iff, hlo, hhi2]
  refine ⟨e1, ?_, ?_⟩
  · simp [Dbenc.sha256I, List.length_take]
  · rw [e1, e2]
    intro hcontra
    have h3 : (Dbenc.sha256I (lo ++ hi)).take 12 = (Dbenc.sha256I (lo ++ hi2)).take 12 := by
      simpa using hcontra
    exact hne (List.append_cancel_left (Dbenc.sha256I_take12_inj h3))

/-- C8 witness: concrete distinct client ids give distinct IVs. -/
theorem fixedNonce_deterministic_and_distinct_witness :
    Dbenc.fixedNonce [1] [2] = .ok ((Dbenc.sha256I ([1] ++ [2])).take 12)
    ∧ ((Dbenc.sha256I ([1] ++ [2])).take 12).length = 12
    ∧ Dbenc.fixedNonce [1] [2] ≠ Dbenc.fixedNonce [1] [3] :=
  fixedNonce_deterministic_and_distinct [1] [2] [3] (by decide) (by decide)
    (by decide) (by decide)

/-- C2 (code bug): at the spec's own probe `expiry = base + 400 days`
(base 2024-01-01T00:00Z, expiry 2025-02-04T00:00Z, 13 calendar months out,
hence strictly more than 9), `expiry2plan` returns `("month", 13)`, not
`("year", 1)`: the `totalMonths > 9 → ("year", 1)` assignment (whose own
comment reads "12 month plan") is dead, overwritten by the final `else`.
The claim's other probe rows do hold: +3 calendar months gives
`("month", 3)`, +20 days gives `("month", 1)`, and −1 day throws. -/
theorem expiry2plan_400days_gives_month13 :
    Wse.expiry2plan ⟨2025, 1, 1704067200000 + 400 * 86400000⟩ false
        ⟨2024, 0, 1704067200000⟩ = .ok ("month", 13)
    ∧ Wse.monthsUntil ⟨2025, 1, 1704067200000 + 400 * 86400000⟩
        ⟨2024, 0, 1704067200000⟩ = 13
    ∧ Wse.expiry2plan ⟨2024, 3, 1704067200000 + 91 * 86400000⟩ false
        ⟨2024, 0, 1704067200000⟩ = .ok ("month", 3)
    ∧ Wse.expiry2plan ⟨2024, 0, 1704067200000 + 20 * 86400000⟩ false
        ⟨2024, 0, 1704067200000⟩ = .ok ("month", 1)
    ∧ Wse.expiry2plan ⟨2023, 11, 1704067200000 - 86400000⟩ false
        ⟨2024, 0, 1704067200000⟩ = .err .planExpired := by
  refine ⟨?_, ?_, ?_, ?_, ?_⟩ <;> decide

/-- C6: in `getOrGenWsEntitlement`, when a credential is held and the
renewal step (`maybeUpdateCreds`) throws: if the held entitlement's status
was not "expired" the error is only logged and the still-valid entitlement
is returned; if it was already "expired" the error propagates. -/
theorem getOrGen_renewal_failure (o : Wse.GenOracle) (cid : String) (renew : Bool)
    (c : Wse.Ent) (e : Wse.WErr)
    (hcreds : o.creds1 = .ok (some c)) (hupd : o.maybeUpd c = .err e) :
    (c.status ≠ "expired" → renew = true →
      Wse.getOrGenWsEntitlement o cid renew = .ok c)
    ∧ (c.status = "expired" →
      Wse.getOrGenWsEntitlement o cid renew = .err e) := by
  constructor
  · intro hne hr
    subst hr
    simp [Wse.getOrGenWsEntitlement, hcreds, hupd, hne]
  · intro hexp
    simp [Wse.getOrGenWsEntitlement, hcreds, hupd, hexp]

/-- C6 witness: a held valid entitlement survives a thrown renewal. -/
theorem getOrGen_renewal_failure_witness :
    Wse.getOrGenWsEntitlement
      { creds1 := .ok (some ⟨"c", "t", 5, "valid", false⟩)
        newCredsOut := .err (.collab 0)
        encOut := .ok none
        insertOk := .ok false
        creds2 := .ok none
        del3pOk := true
        maybeUpd := fun _ => .err (.collab 1)
        nowMs := 0
        testing := false } "c" true = .ok ⟨"c", "t", 5, "valid", false⟩ :=
  (getOrGen_renewal_failure _ "c" true ⟨"c", "t", 5, "valid", false⟩ (.collab 1)
    rfl rfl).1 (by decide) rfl

/-- C10: `deleteWsEntitlement` returns successfully having made no
third-party deletion call and no credential-row deletion whenever no
credential row exists, or whenever the read/decrypt of the stored credential
throws (the read error is swallowed); and it raises an error only for a
banned entitlement, a third-party deletion that fails after the retries, or
a store delete that fails after a successful third-party deletion. -/
theorem deleteWsEntitlement_failure_modes (o : Wse.WseOracle) (cid : String) :
    (o.wsCredsRows = [] → Wse.deleteWsEntitlement o cid = (.ok (), []))
    ∧ (∀ e, o.decryptOut = .err e → Wse.deleteWsEntitlement o cid = (.ok (), []))
    ∧ (o.decryptOut = .ok none → Wse.deleteWsEntitlement o cid = (.ok (), []))
    ∧ (∀ e, (Wse.deleteWsEntitlement o cid).1 = .err e →
        e = .bannedDelete ∨ e = .deleteFailed ∨ e = .dbDeleteFailed) := by
  refine ⟨?_, ?_, ?_, ?_⟩
  · intro h
    simp [Wse.deleteWsEntitlement, Wse.creds, h]
  · intro e he
    cases hr : o.wsCredsRows with
    | nil => simp [Wse.deleteWsEntitlement, Wse.creds, hr]
    | cons row rest =>
      by_cases hu : row.userid = "" ∨ row.sessiontoken = ""
      · simp [Wse.deleteWsEntitlement, Wse.creds, hr, hu]
      · simp [Wse.deleteWsEntitlement, Wse.creds, hr, hu, he]
  · intro he
    cases hr : o.wsCredsRows with
    | nil => simp [Wse.deleteWsEntitlement, Wse.creds, hr]
    | cons row rest =>
      by_cases hu : row.userid = "" ∨ row.sessiontoken = ""
      · simp [Wse.deleteWsEntitlement, Wse.creds, hr, hu]
      · simp [Wse.deleteWsEntitlement, Wse.creds, hr, hu, he]
  · intro e he
    unfold Wse.deleteWsEntitlement at he
    rcases hcr : Wse.creds o cid with ⟨cres, tr1⟩
    rw [hcr] at he
    rcases cres with e2 | copt
    · simp at he
    rcases copt with _ | c
    · simp at he
    simp only at he
    by_cases hb : c.status = "banned"
    · simp [hb] at he
      exact Or.inl he.symm
    · simp only [hb, if_false] at he
      rcases hdel : Wse.deleteCreds o with ⟨deleted, tr2⟩
      rw [hdel] at he
      cases deleted with
      | false =>
        simp at he
        exact Or.inr (Or.inl he.symm)
      | true =>
        cases hdb : o.dbDeleteOk with
        | false =>
          simp [hdb] at he
          exact Or.inr (Or.inr he.symm)
        | true => simp [hdb] at he

/-- C10 witness: a concrete run with no credential row succeeds without any
deletion effect. -/
theorem deleteWsEntitlement_failure_modes_witness :
    Wse.deleteWsEntitlement
      { wsCredsRows := []
        decryptOut := .ok none
        credsStatusOut := fun _ => ("unknown", none)
        del3pAttempts := fun _ => .netErr
        dbDeleteOk := false
        nowMs := 0
        testing := false } "c" = (.ok (), []) :=
  (deleteWsEntitlement_failure_modes _ "c").1 rfl

/-- C9: upserting a Subscription/Order Record for a purchase token that
already has a row only touches the `meta`, `linkedtoken` and `mtime`
columns — `purchasetoken`, `prod`, `cid` (the first writer's client
binding) and `ctime` of every row are unchanged, rows for other tokens are
untouched — and an upsert with null `info` leaves an existing row entirely
unchanged (INSERT OR IGNORE). -/
theorem upsertPlaySub_conflict_frame {μ : Type} (db : List (Dbx.PlayRow μ))
    (cid token : String) (lt : Option String) (inf : μ) (now : Int)
    (hpresent : db.any (fun r => r.purchasetoken == token) = true) :
    ((Dbx.upsertPlaySub db cid token lt (some inf) now).map
        (fun r => (r.purchasetoken, r.prod, r.cid, r.ctime))
      = db.map (fun r => (r.purchasetoken, r.prod, r.cid, r.ctime)))
    ∧ (∀ r ∈ db, r.purchasetoken ≠ token →
        r ∈ Dbx.upsertPlaySub db cid token lt (some inf) now)
    ∧ Dbx.upsertPlaySub db cid token lt (none : Option μ) now = db := by
  refine ⟨?_, ?_, ?_⟩
  · simp only [Dbx.upsertPlaySub, hpresent, if_true, List.map_map]
    apply List.map_congr_left
    intro r _
    by_cases h : (r.purchasetoken == token) = true <;>
      simp [Function.comp, h]
  · intro r hr hne
    simp only [Dbx.upsertPlaySub, hpresent, if_true]
    refine List.mem_map.mpr ⟨r, hr, ?_⟩
    have hb : (r.purchasetoken == token) = false := by simp [hne]
    simp [hb]
  · simp [Dbx.upsertPlaySub, hpresent]

/-- C9 witness: a concrete conflicting upsert rewrites only
meta/linkedtoken/mtime, and a null-info upsert is a no-op. -/
theorem upsertPlaySub_conflict_frame_witness :
    ((Dbx.upsertPlaySub [⟨"tok", none, some "old", "cid1", none, 0, 0⟩] "cid2"
        "tok" (some "link") (some "new") 5).map
        (fun r => (r.purchasetoken, r.prod, r.cid, r.ctime))
      = [(("tok" : String), (none : Option String), ("cid1" : String), (0 : Int))])
    ∧ Dbx.upsertPlaySub [(⟨"tok", none, some "old", "cid1", none, 0, 0⟩ :
          Dbx.PlayRow String)] "cid2" "tok" (some "link") (none : Option String) 5
      = [⟨"tok", none, some "old", "cid1", none, 0, 0⟩] :=
  ⟨((upsertPlaySub_conflict_frame [⟨"tok", none, some "old", "cid1", none, 0, 0⟩]
      "cid2" "tok" (some "link") "new" 5 (by decide)).1).trans (by decide),
   (upsertPlaySub_conflict_frame [⟨"tok", none, some "old", "cid1", none, 0, 0⟩]
      "cid2" "tok" (some "link") "new" 5 (by decide)).2.2⟩

/-- C7: a self-service refund of a one-time purchase with a known plan is
rejected with the "refund window exceeded" error — performing no provider
refund call and no entitlement deletion — exactly when the elapsed time
since the purchase start exceeds the base plan's refund window, and
proceeds (provider refund plus entitlement deletion attempt) when it is
within the window; the window is 3/7/14/28 days for the
monthly/yearly/two-yearly/five-yearly base plans. -/
theorem refund_window_enforced (o : Playorder.RefundOracle) (cid pt : String)
    (p : Playorder.PurchaseV2) (pl : Playorder.GEnt)
    (hget : o.getProduct = .ok p) (hplan : o.plan = some pl)
    (hord : p.orderId ≠ "") (hpt : pt ≠ "") :
    (Playorder.withinRefundWindow pl o.nowMs = false →
      Playorder.refundOnetimePurchase o cid pt
        = (.ok (.bad400 "refund window exceeded"), []))
    ∧ (Playorder.withinRefundWindow pl o.nowMs = true → o.refundOrderOut = .ok () →
      Playorder.refundOnetimePurchase o cid pt
        = (.ok (.ok200 "refunded onetime purchase"),
            [Playorder.RefEff.refundCall, Playorder.RefEff.delEntCall]))
    ∧ (Playorder.withinRefundWindow pl o.nowMs
        = decide ((o.nowMs - pl.startMs : ℚ) / 86400000
            ≤ (Playorder.refundWindowDays pl : ℚ)))
    ∧ (pl.basePlanId = "proxy-monthly" → Playorder.refundWindowDays pl = 3)
    ∧ (pl.basePlanId = "proxy-yearly" → Playorder.refundWindowDays pl = 7)
    ∧ (pl.basePlanId = "proxy-yearly-2" → Playorder.refundWindowDays pl = 14)
    ∧ (pl.basePlanId = "proxy-yearly-5" → Playorder.refundWindowDays pl = 28) := by
  refine ⟨?_, ?_, ?_, ?_, ?_, ?_, ?_⟩
  · intro hwin
    simp [Playorder.refundOnetimePurchase, hget, hplan, hord, hpt, hwin]
  · intro hwin hro
    simp [Playorder.refundOnetimePurchase, hget, hplan, hord, hpt, hwin, hro]
  · norm_num [Playorder.withinRefundWindow]
  · intro h
    simp [Playorder.refundWindowDays, Playorder.monthlyBasePlanId, h]
  · intro h
    simp [Playorder.refundWindowDays, Playorder.monthlyBasePlanId,
      Playorder.yearlyBasePlanId, h]
  · intro h
    simp [Playorder.refundWindowDays, Playorder.monthlyBasePlanId,
      Playorder.yearlyBasePlanId, Playorder.twoYearlyBasePlanId, h]
  · intro h
    simp [Playorder.refundWindowDays, Playorder.monthlyBasePlanId,
      Playorder.yearlyBasePlanId, Playorder.twoYearlyBasePlanId,
      Playorder.fiveYearlyBasePlanId, h]

/-- C7 witness: a monthly (3-day window) one-time purchase refunded at day 4
is rejected with the window-exceeded error and no provider/entitlement
effect. -/
theorem refund_window_enforced_witness :
    Playorder.refundOnetimePurchase
      { getProduct := .ok ⟨"ord"⟩, plan := some ⟨"p", "proxy-monthly", 0, 100⟩,
        refundOrderOut := .ok (), delEntOut := .ok (), nowMs := 4 * 86400000 }
      "c" "t" = (.ok (.bad400 "refund window exceeded"), []) :=
  (refund_window_enforced _ "c" "t" ⟨"ord"⟩ ⟨"p", "proxy-monthly", 0, 100⟩ rfl rfl
    (by decide) (by decide)).1 (by
      simp [Playorder.withinRefundWindow, Playorder.refundWindowDays,
        Playorder.monthlyBasePlanId]
      norm_num)

/-- C5: when some other row's `linkedtoken` points at the incoming purchase
token (the token is obsoleted), `processSubscription` — whatever the
subscription state, including active — persists/refreshes the
Subscription/Order Record first, acknowledges without any entitlement
payload only if not already acknowledged, performs no entitlement fetch,
creation, renewal, acknowledgement-with-payload or deletion, and reports
success. -/
theorem obsoleted_token_ack_without_entitlement
    (o : Playorder.PSOracle) (db : List (Dbx.PlayRow Playorder.SubPurchase))
    (cid : String) (sub : Playorder.SubPurchase) (pt : String) (revoked : Bool)
    (now : Int) (r : Dbx.PlayRow Playorder.SubPurchase)
    (hr : r ∈ db) (hlink : r.linkedtoken = some pt) :
    (Playorder.processSubscription o db cid sub pt revoked now).db
        = Dbx.upsertPlaySub db cid pt sub.linkedPurchaseToken (some sub) now
    ∧ (Playorder.processSubscription o db cid sub pt revoked now).tr.head?
        = some Playorder.PEff.upsertSub
    ∧ (sub.acknowledgementState ≠ "ACKNOWLEDGEMENT_STATE_ACKNOWLEDGED" →
        (Playorder.processSubscription o db cid sub pt revoked now).tr
          = [Playorder.PEff.upsertSub, Playorder.PEff.ackNoEnt]
        ∧ (o.ackNoEntOut = .ok () →
            (Playorder.processSubscription o db cid sub pt revoked now).res
              = .ok (some true)))
    ∧ (sub.acknowledgementState = "ACKNOWLEDGEMENT_STATE_ACKNOWLEDGED" →
        (Playorder.processSubscription o db cid sub pt revoked now).tr
          = [Playorder.PEff.upsertSub]
        ∧ (Playorder.processSubscription o db cid sub pt revoked now).res
          = .ok (some true))
    ∧ Playorder.PEff.entFetch
        ∉ (Playorder.processSubscription o db cid sub pt revoked now).tr
    ∧ Playorder.PEff.entDel
        ∉ (Playorder.processSubscription o db cid sub pt revoked now).tr
    ∧ Playorder.PEff.ackEnt
        ∉ (Playorder.processSubscription o db cid sub pt revoked now).tr := by
  have hobs : Playorder.isPurchaseTokenLinked db pt = true :=
    Playorder.isLinked_of_mem hr hlink
  by_cases hack : sub.acknowledgementState = "ACKNOWLEDGEMENT_STATE_ACKNOWLEDGED"
  · simp [Playorder.processSubscription, hobs, hack]
  · rcases hno : o.ackNoEntOut with e | u
    · simp [Playorder.processSubscription, hobs, hack, hno]
    · rcases u
      simp [Playorder.processSubscription, hobs, hack, hno]

/-- C5 witness: a concrete obsoleted, unacknowledged, active-looking token
is acknowledged without entitlement after the upsert. -/
theorem obsoleted_token_ack_without_entitlement_witness :
    ((Playorder.processSubscription
        { gprod := .ok none, entOut := .ok none, ackOut := .ok (),
          ackNoEntOut := .ok (), delEnt := fun _ => .ok () }
        [⟨"B", none, none, "c", some "A", 0, 0⟩] "c"
        { subscriptionState := "SUBSCRIPTION_STATE_ACTIVE",
          acknowledgementState := "ACKNOWLEDGEMENT_STATE_UNACKNOWLEDGED",
          lineItems := [], canceledStateContext := none, testPurchase := false,
          linkedPurchaseToken := none, extAcctId := none } "A" false 9).tr
      = [Playorder.PEff.upsertSub, Playorder.PEff.ackNoEnt])
    ∧ (Playorder.processSubscription
        { gprod := .ok none, entOut := .ok none, ackOut := .ok (),
          ackNoEntOut := .ok (), delEnt := fun _ => .ok () }
        [⟨"B", none, none, "c", some "A", 0, 0⟩] "c"
        { subscriptionState := "SUBSCRIPTION_STATE_ACTIVE",
          acknowledgementState := "ACKNOWLEDGEMENT_STATE_UNACKNOWLEDGED",
          lineItems := [], canceledStateContext := none, testPurchase := false,
          linkedPurchaseToken := none, extAcctId := none } "A" false 9).res
      = .ok (some true) := by
  have h := obsoleted_token_ack_without_entitlement
    { gprod := .ok none, entOut := .ok none, ackOut := .ok (),
      ackNoEntOut := .ok (), delEnt := fun _ => .ok () }
    [⟨"B", none, none, "c", some "A", 0, 0⟩] "c"
    { subscriptionState := "SUBSCRIPTION_STATE_ACTIVE",
      acknowledgementState := "ACKNOWLEDGEMENT_STATE_UNACKNOWLEDGED",
      lineItems := [], canceledStateContext := none, testPurchase := false,
      linkedPurchaseToken := none, extAcctId := none } "A" false 9
    ⟨"B", none, none, "c", some "A", 0, 0⟩ (by simp) rfl
  exact ⟨(h.2.2.1 (by decide)).1, (h.2.2.1 (by decide)).2 rfl⟩

/-- C1 (amended): on the server-initiated webhook path,
`getCidThenPersist`/`getCid` call `getOrGenAndPersistCid` with `gen = !true`
(generation refused), so when the account-id resolution fails (no usable
`obfuscatedExternalAccountId` after the bounded linked-token chain) they
throw — persisting nothing and blocking acknowledgement — rather than
generate; the fresh random 64-hex system-generated id is produced and
persisted only when `getOrGenAndPersistCid` is invoked with `gen = true`,
which no caller does. -/
theorem webhook_cid_refusal (o : Playorder.CidOracle) (sub : Playorder.SubPurchase)
    (e : Playorder.PErr) (hfail : Playorder.recursivelyGetCid o sub 1 = .err e) :
    Playorder.getCidThenPersist o sub = (.err .cidMissingRefuse, [])
    ∧ Playorder.getCid o sub = (.err .cidMissingRefuse, [])
    ∧ (o.insertClientOk = true →
        Playorder.getOrGenAndPersistCid o sub true true
          = (.ok o.randHex, [Playorder.CEff.insertClient o.randHex 1])) := by
  refine ⟨?_, ?_, fun hins => ?_⟩
  · simp [Playorder.getCidThenPersist, Playorder.getOrGenAndPersistCid, hfail]
  · simp [Playorder.getCid, Playorder.getOrGenAndPersistCid, hfail]
  · simp [Playorder.getOrGenAndPersistCid, hfail, hins]

/-- C1 counterexample: for a subscription with no obfuscated account id and
no linked purchase token, the webhook path `getCidThenPersist` throws and
persists nothing, instead of generating a fresh client id and continuing as
the claim states. -/
theorem getCidThenPersist_refuses_concrete :
    Playorder.getCidThenPersist
      { getSub := fun _ => .err (.collab 0),
        randHex := "aaaaaaaaaaaaaaaaaaaaaaaaaaaaaaaaaaaaaaaaaaaaaaaaaaaaaaaaaaaaaaaa",
        insertClientOk := true }
      { subscriptionState := "SUBSCRIPTION_STATE_ACTIVE",
        acknowledgementState := "ACKNOWLEDGEMENT_STATE_UNACKNOWLEDGED",
        lineItems := [], canceledStateContext := none, testPurchase := false,
        linkedPurchaseToken := none, extAcctId := none }
      = (.err .cidMissingRefuse, []) := by decide

/-- C1 witness: at the same missing-id input, `getCid` also refuses, while
a `gen = true` invocation would return and persist the generated id. -/
theorem webhook_cid_refusal_witness :
    Playorder.getCid
      { getSub := fun _ => .err (.collab 0),
        randHex := "aaaaaaaaaaaaaaaaaaaaaaaaaaaaaaaaaaaaaaaaaaaaaaaaaaaaaaaaaaaaaaaa",
        insertClientOk := true }
      { subscriptionState := "SUBSCRIPTION_STATE_ACTIVE",
        acknowledgementState := "ACKNOWLEDGEMENT_STATE_UNACKNOWLEDGED",
        lineItems := [], canceledStateContext := none, testPurchase := false,
        linkedPurchaseToken := none, extAcctId := none }
      = (.err .cidMissingRefuse, [])
    ∧ Playorder.getOrGenAndPersistCid
      { getSub := fun _ => .err (.collab 0),
        randHex := "aaaaaaaaaaaaaaaaaaaaaaaaaaaaaaaaaaaaaaaaaaaaaaaaaaaaaaaaaaaaaaaa",
        insertClientOk := true }
      { subscriptionState := "SUBSCRIPTION_STATE_ACTIVE",
        acknowledgementState := "ACKNOWLEDGEMENT_STATE_UNACKNOWLEDGED",
        lineItems := [], canceledStateContext := none, testPurchase := false,
        linkedPurchaseToken := none, extAcctId := none } true true
      = (.ok "aaaaaaaaaaaaaaaaaaaaaaaaaaaaaaaaaaaaaaaaaaaaaaaaaaaaaaaaaaaaaaaa",
          [Playorder.CEff.insertClient
            "aaaaaaaaaaaaaaaaaaaaaaaaaaaaaaaaaaaaaaaaaaaaaaaaaaaaaaaaaaaaaaaa" 1]) :=
  ⟨(webhook_cid_refusal _ _ .cidMissingRec (by decide)).2.1,
   (webhook_cid_refusal _ _ .cidMissingRec (by decide)).2.2 rfl⟩

end Redir
